import Mathlib

/-!
Verification of the certificate-trust decision engine of rustls-openssl-compat
(`rustls-libssl/src/verifier.rs`).

The file shallowly embeds `ServerVerifier` and its `ServerCertVerifier`
implementation.  External collaborators (the rustls library functions
`ParsedCertificate::try_from`, `verify_server_cert_signed_by_trust_anchor`,
`verify_server_name`, `verify_tls12_signature`, `verify_tls13_signature`,
`WebPkiSupportedAlgorithms::supported_schemes`) are kept abstract as the
fields of a `RustlsApi` record: the component under verification only
sequences and classifies their results.  The interior-mutable
`last_result: AtomicI64` register is embedded as explicit state passing:
each method returns its result together with the post-state of the verifier.
-/

namespace Verifier

/-- DER-encoded certificate bytes (`CertificateDer` in rustls). -/
abbrev CertificateDer := List Nat

/-- A certificate parsed by rustls (`ParsedCertificate`); opaque to this component. -/
abbrev ParsedCertificate := List Nat

/-- A server name (`ServerName` in rustls); opaque to this component. -/
abbrev ServerName := String

/-- A point in time (`UnixTime` in rustls). -/
abbrev UnixTime := Nat

/-- A TLS signature-scheme identifier (`SignatureScheme`, a u16 codepoint). -/
abbrev SignatureScheme := Nat

/-- An identifier for one signature-verification algorithm of the provider. -/
abbrev SigVerifAlg := Nat

/-- The shared trust-anchor store (`RootCertStore`); opaque to this component. -/
abbrev RootCertStore := List CertificateDer

/-- A handshake signature together with its scheme (`DigitallySignedStruct`). -/
structure DigitallySignedStruct where
  scheme : SignatureScheme
  signature : List Nat
deriving DecidableEq

/-- The provider's signature-verification algorithms
(`WebPkiSupportedAlgorithms`): the flat list `all` used for chain validation,
plus the scheme mapping from which `supported_schemes()` is derived. -/
structure WebPkiSupportedAlgorithms where
  all : List SigVerifAlg
  mapping : List (SignatureScheme × List SigVerifAlg)
deriving DecidableEq

/-- The shared crypto provider (`CryptoProvider`); only its
`signature_verification_algorithms` field is consumed here. -/
structure CryptoProvider where
  signature_verification_algorithms : WebPkiSupportedAlgorithms
deriving DecidableEq

/-- rustls `ServerCertVerified`; constructed only via `assertion`. -/
inductive ServerCertVerified
  | assertion
deriving DecidableEq

/-- rustls `HandshakeSignatureValid`; constructed only via `assertion`. -/
inductive HandshakeSignatureValid
  | assertion
deriving DecidableEq

/-- rustls `CertificateError`.  The six variants named in the verifier's match
are listed; every other variant of the Rust enum is collapsed into
`otherCertificateError`, which the verifier treats uniformly (catch-all arm). -/
inductive CertificateError
  | UnknownIssuer
  | NotValidYet
  | Expired
  | Revoked
  | InvalidPurpose
  | NotValidForName
  | otherCertificateError (tag : Nat)
deriving DecidableEq

/-- rustls `Error`.  The verifier only inspects the `InvalidCertificate`
variant; every other variant of the Rust enum is collapsed into `otherError`,
which the verifier treats uniformly (catch-all arm). -/
inductive Error
  | InvalidCertificate (e : CertificateError)
  | otherError (tag : Nat)
deriving DecidableEq

/-- openssl-sys `X509_V_OK` (the success value). -/
def X509_V_OK : Int := 0

/-- openssl-sys `X509_V_ERR_UNSPECIFIED` (generic fallback and initial sentinel). -/
def X509_V_ERR_UNSPECIFIED : Int := 1

/-- openssl-sys `X509_V_ERR_CERT_NOT_YET_VALID`. -/
def X509_V_ERR_CERT_NOT_YET_VALID : Int := 9

/-- openssl-sys `X509_V_ERR_CERT_HAS_EXPIRED`. -/
def X509_V_ERR_CERT_HAS_EXPIRED : Int := 10

/-- openssl-sys `X509_V_ERR_UNABLE_TO_GET_ISSUER_CERT_LOCALLY`. -/
def X509_V_ERR_UNABLE_TO_GET_ISSUER_CERT_LOCALLY : Int := 20

/-- openssl-sys `X509_V_ERR_CERT_REVOKED`. -/
def X509_V_ERR_CERT_REVOKED : Int := 23

/-- openssl-sys `X509_V_ERR_INVALID_PURPOSE`. -/
def X509_V_ERR_INVALID_PURPOSE : Int := 26

/-- openssl-sys `X509_V_ERR_HOSTNAME_MISMATCH`. -/
def X509_V_ERR_HOSTNAME_MISMATCH : Int := 62

/-- Modelled from the spec: `VerifyMode` lives at the crate root (not under
`src/`); the spec describes it as a configuration value in
{advisory-only, mandatory}. -/
inductive VerifyMode
  | advisory
  | mandatory
deriving DecidableEq

/-- Modelled from the spec: `VerifyMode::client_must_verify_server` answers
whether a failed verification must abort the handshake; true exactly for the
mandatory setting. -/
def VerifyMode.client_must_verify_server : VerifyMode → Bool
  | .advisory => false
  | .mandatory => true

/-- The external rustls functions the verifier delegates to, kept abstract.
Each field's signature mirrors the arguments the verifier actually passes. -/
structure RustlsApi where
  try_from : CertificateDer → Except Error ParsedCertificate
  verify_server_cert_signed_by_trust_anchor :
    ParsedCertificate → RootCertStore → List CertificateDer → UnixTime →
    List SigVerifAlg → Except Error Unit
  verify_server_name : ParsedCertificate → ServerName → Except Error Unit
  verify_tls12_signature :
    List Nat → CertificateDer → DigitallySignedStruct →
    WebPkiSupportedAlgorithms → Except Error HandshakeSignatureValid
  verify_tls13_signature :
    List Nat → CertificateDer → DigitallySignedStruct →
    WebPkiSupportedAlgorithms → Except Error HandshakeSignatureValid
  supported_schemes : WebPkiSupportedAlgorithms → List SignatureScheme

/-- The state of a `ServerVerifier`.  `last_result` is the content of the
`AtomicI64` register; all other fields are immutable after construction. -/
structure ServerVerifier where
  root_store : RootCertStore
  provider : CryptoProvider
  verify_hostname : Option ServerName
  mode : VerifyMode
  last_result : Int
deriving DecidableEq

/-- `ServerVerifier::new`: captures the collaborators and settings and
initialises the register to `X509_V_ERR_UNSPECIFIED`. -/
def ServerVerifier.new (root_store : RootCertStore) (provider : CryptoProvider)
    (mode : VerifyMode) (hostname : Option ServerName) : ServerVerifier :=
  { root_store := root_store
    provider := provider
    verify_hostname := hostname
    mode := mode
    last_result := X509_V_ERR_UNSPECIFIED }

/-- `ServerVerifier::last_result`: acquire-load of the register.  (The Rust
method shares its name with the field; here the accessor is `last_result_load`
and the field keeps the name `last_result`.) -/
def ServerVerifier.last_result_load (v : ServerVerifier) : Int :=
  v.last_result

/-- `ServerVerifier::verify_server_cert_inner`: parse the end-entity
certificate, validate the chain against the root store with the provider's
algorithms, then check the configured expected hostname when one is set. -/
def ServerVerifier.verify_server_cert_inner (R : RustlsApi) (v : ServerVerifier)
    (end_entity : CertificateDer) (intermediates : List CertificateDer)
    (now : UnixTime) : Except Error Unit := do
  let parsed ← R.try_from end_entity
  R.verify_server_cert_signed_by_trust_anchor parsed v.root_store intermediates
    now v.provider.signature_verification_algorithms.all
  match v.verify_hostname with
  | some server_name => R.verify_server_name parsed server_name
  | none => pure ()

/-- The match in `verify_server_cert` (verifier.rs lines 99-119) computing
`openssl_rv` from `result`. -/
def openssl_rv_of (result : Except Error Unit) : Int :=
  match result with
  | .ok () => X509_V_OK
  | .error (.InvalidCertificate .UnknownIssuer) =>
      X509_V_ERR_UNABLE_TO_GET_ISSUER_CERT_LOCALLY
  | .error (.InvalidCertificate .NotValidYet) => X509_V_ERR_CERT_NOT_YET_VALID
  | .error (.InvalidCertificate .Expired) => X509_V_ERR_CERT_HAS_EXPIRED
  | .error (.InvalidCertificate .Revoked) => X509_V_ERR_CERT_REVOKED
  | .error (.InvalidCertificate .InvalidPurpose) => X509_V_ERR_INVALID_PURPOSE
  | .error (.InvalidCertificate .NotValidForName) => X509_V_ERR_HOSTNAME_MISMATCH
  | .error _ => X509_V_ERR_UNSPECIFIED

/-- Rust's `Result::unwrap_err`.  The `ok` arm models the Rust panic; in
`verify_server_cert` it is unreachable, because the branch that calls
`unwrap_err` is taken only when `openssl_rv` is not `X509_V_OK`, which forces
`result` to be an error. -/
def unwrap_err : Except Error Unit → Error
  | .error e => e
  | .ok _ => Error.otherError 0

/-- `ServerVerifier::verify_server_cert` (the `ServerCertVerifier` impl):
runs the inner verification, maps its outcome to a legacy code, release-stores
that code into the register (here: the returned post-state), and decides
success per the verify mode.  The transport-supplied server name and the OCSP
response are accepted but unused, as in the source
(`_ignored_server_name`, `_ocsp_response`). -/
def ServerVerifier.verify_server_cert (R : RustlsApi) (v : ServerVerifier)
    (end_entity : CertificateDer) (intermediates : List CertificateDer)
    (_ignored_server_name : ServerName) (_ocsp_response : List Nat)
    (now : UnixTime) : Except Error ServerCertVerified × ServerVerifier :=
  let result := v.verify_server_cert_inner R end_entity intermediates now
  let openssl_rv := openssl_rv_of result
  let v' := { v with last_result := openssl_rv }
  if openssl_rv == X509_V_OK || !v.mode.client_must_verify_server then
    (Except.ok ServerCertVerified.assertion, v')
  else
    (Except.error (unwrap_err result), v')

/-- `ServerCertVerifier::verify_tls12_signature`: delegation to the provider's
TLS 1.2 signature verification; the verifier state is untouched. -/
def ServerVerifier.verify_tls12_signature (R : RustlsApi) (v : ServerVerifier)
    (message : List Nat) (cert : CertificateDer) (dss : DigitallySignedStruct) :
    Except Error HandshakeSignatureValid × ServerVerifier :=
  (R.verify_tls12_signature message cert dss
    v.provider.signature_verification_algorithms, v)

/-- `ServerCertVerifier::verify_tls13_signature`: delegation to the provider's
TLS 1.3 signature verification; the verifier state is untouched. -/
def ServerVerifier.verify_tls13_signature (R : RustlsApi) (v : ServerVerifier)
    (message : List Nat) (cert : CertificateDer) (dss : DigitallySignedStruct) :
    Except Error HandshakeSignatureValid × ServerVerifier :=
  (R.verify_tls13_signature message cert dss
    v.provider.signature_verification_algorithms, v)

/-- `ServerCertVerifier::supported_verify_schemes`: query of the provider's
declared scheme set; the verifier state is untouched. -/
def ServerVerifier.supported_verify_schemes (R : RustlsApi) (v : ServerVerifier) :
    List SignatureScheme × ServerVerifier :=
  (R.supported_schemes v.provider.signature_verification_algorithms, v)

deriving instance DecidableEq for Except

/-- The section 6 table of the specification, written from the spec's words as
a chain of rows checked in order: Success maps to OK; unknown issuer to
"unable to get issuer certificate locally"; not-yet-valid, expired, revoked,
invalid purpose and hostname mismatch to their named codes; and any other
classified failure to the "unspecified" generic fallback. -/
def specSection6Code (outcome : Except Error Unit) : Int :=
  if outcome = Except.ok () then
    X509_V_OK
  else if outcome = Except.error (Error.InvalidCertificate CertificateError.UnknownIssuer) then
    X509_V_ERR_UNABLE_TO_GET_ISSUER_CERT_LOCALLY
  else if outcome = Except.error (Error.InvalidCertificate CertificateError.NotValidYet) then
    X509_V_ERR_CERT_NOT_YET_VALID
  else if outcome = Except.error (Error.InvalidCertificate CertificateError.Expired) then
    X509_V_ERR_CERT_HAS_EXPIRED
  else if outcome = Except.error (Error.InvalidCertificate CertificateError.Revoked) then
    X509_V_ERR_CERT_REVOKED
  else if outcome = Except.error (Error.InvalidCertificate CertificateError.InvalidPurpose) then
    X509_V_ERR_INVALID_PURPOSE
  else if outcome = Except.error (Error.InvalidCertificate CertificateError.NotValidForName) then
    X509_V_ERR_HOSTNAME_MISMATCH
  else
    X509_V_ERR_UNSPECIFIED

/-- Membership in the fixed legacy-code enumeration used by the verifier
(the codes of the section 6 table, success and sentinel included). -/
def isLegacyCode (c : Int) : Prop :=
  c = X509_V_OK ∨ c = X509_V_ERR_UNSPECIFIED ∨ c = X509_V_ERR_CERT_NOT_YET_VALID ∨
  c = X509_V_ERR_CERT_HAS_EXPIRED ∨ c = X509_V_ERR_UNABLE_TO_GET_ISSUER_CERT_LOCALLY ∨
  c = X509_V_ERR_CERT_REVOKED ∨ c = X509_V_ERR_INVALID_PURPOSE ∨
  c = X509_V_ERR_HOSTNAME_MISMATCH

/-- Helper: bind on a successful `Except` computation steps to the
continuation. -/
theorem except_bind_ok {α β : Type} (a : α) (k : α → Except Error β) :
    (Except.ok a : Except Error α) >>= k = k a :=
  rfl

/-- Helper: bind on a failed `Except` computation short-circuits to the
error. -/
theorem except_bind_error {α β : Type} (e : Error) (k : α → Except Error β) :
    (Except.error e : Except Error α) >>= k = Except.error e :=
  rfl

/-- Helper: pure on `Except` is the success constructor. -/
theorem except_pure {α : Type} (a : α) :
    (pure a : Except Error α) = Except.ok a :=
  rfl

/-- Helper: the post-state of `verify_server_cert` is the pre-state with the
register overwritten by the mapped code of the inner outcome. -/
theorem verify_server_cert_snd (R : RustlsApi) (v : ServerVerifier)
    (ee : CertificateDer) (ints : List CertificateDer) (sn : ServerName)
    (ocsp : List Nat) (now : UnixTime) :
    (ServerVerifier.verify_server_cert R v ee ints sn ocsp now).2 =
      { v with last_result :=
          openssl_rv_of (v.verify_server_cert_inner R ee ints now) } := by
  simp only [ServerVerifier.verify_server_cert]
  split <;> rfl

/-- Helper: the decision of `verify_server_cert` as a closed form of the
mapped code, the mode, and the inner outcome. -/
theorem verify_server_cert_fst (R : RustlsApi) (v : ServerVerifier)
    (ee : CertificateDer) (ints : List CertificateDer) (sn : ServerName)
    (ocsp : List Nat) (now : UnixTime) :
    (ServerVerifier.verify_server_cert R v ee ints sn ocsp now).1 =
      if openssl_rv_of (v.verify_server_cert_inner R ee ints now) == X509_V_OK
          || !v.mode.client_must_verify_server then
        Except.ok ServerCertVerified.assertion
      else
        Except.error (unwrap_err (v.verify_server_cert_inner R ee ints now)) := by
  simp only [ServerVerifier.verify_server_cert]
  split <;> simp_all

/-- Helper: the mapped code is the success value exactly when the inner
outcome is success (every error row of the mapping is a nonzero code). -/
theorem openssl_rv_of_eq_ok_iff (result : Except Error Unit) :
    openssl_rv_of result = X509_V_OK ↔ result = Except.ok () := by
  cases result with
  | ok u => cases u; simp [openssl_rv_of]
  | error e =>
    cases e with
    | InvalidCertificate ce =>
      cases ce <;>
        simp [openssl_rv_of, X509_V_OK, X509_V_ERR_UNSPECIFIED,
          X509_V_ERR_CERT_NOT_YET_VALID, X509_V_ERR_CERT_HAS_EXPIRED,
          X509_V_ERR_UNABLE_TO_GET_ISSUER_CERT_LOCALLY, X509_V_ERR_CERT_REVOKED,
          X509_V_ERR_INVALID_PURPOSE, X509_V_ERR_HOSTNAME_MISMATCH]
    | otherError t =>
      simp [openssl_rv_of, X509_V_OK, X509_V_ERR_UNSPECIFIED]

/-- Helper: the code's mapping match agrees with the spec's section 6 table
row by row. -/
theorem openssl_rv_of_eq_specSection6Code (result : Except Error Unit) :
    openssl_rv_of result = specSection6Code result := by
  cases result with
  | ok u => cases u; rfl
  | error e =>
    cases e with
    | InvalidCertificate ce => cases ce <;> simp [openssl_rv_of, specSection6Code]
    | otherError t => simp [openssl_rv_of, specSection6Code]

/-- Helper: the mapped code of any outcome lies in the fixed legacy
enumeration. -/
theorem openssl_rv_of_isLegacyCode (result : Except Error Unit) :
    isLegacyCode (openssl_rv_of result) := by
  cases result with
  | ok u => cases u; simp [openssl_rv_of, isLegacyCode]
  | error e =>
    cases e with
    | InvalidCertificate ce => cases ce <;> simp [openssl_rv_of, isLegacyCode]
    | otherError t => simp [openssl_rv_of, isLegacyCode]

/-- A concrete signature-algorithm set used for evaluating the theorems. -/
def demoAlgs : WebPkiSupportedAlgorithms :=
  { all := [1, 2], mapping := [(3, [1]), (4, [2])] }

/-- A concrete crypto provider used for evaluating the theorems. -/
def demoProvider : CryptoProvider :=
  { signature_verification_algorithms := demoAlgs }

/-- A concrete instantiation of the external rustls functions on which every
check succeeds. -/
def demoApi : RustlsApi where
  try_from := fun der => Except.ok der
  verify_server_cert_signed_by_trust_anchor := fun _ _ _ _ _ => Except.ok ()
  verify_server_name := fun _ _ => Except.ok ()
  verify_tls12_signature := fun _ _ _ _ => Except.ok HandshakeSignatureValid.assertion
  verify_tls13_signature := fun _ _ _ _ => Except.ok HandshakeSignatureValid.assertion
  supported_schemes := fun a => a.mapping.map Prod.fst

/-- Like `demoApi`, but chain validation reports an expired certificate. -/
def demoApiExpired : RustlsApi :=
  { demoApi with
      verify_server_cert_signed_by_trust_anchor := fun _ _ _ _ _ =>
        Except.error (Error.InvalidCertificate CertificateError.Expired) }

/-- A name check that rejects every certificate, modelling a certificate
valid for no matching name. -/
def rejectAllNames : ParsedCertificate → ServerName → Except Error Unit :=
  fun _ _ => Except.error (Error.InvalidCertificate CertificateError.NotValidForName)

/-- A freshly constructed verifier over the demo collaborators, with no
expected hostname configured. -/
def demoVerifier (m : VerifyMode) : ServerVerifier :=
  ServerVerifier.new [[0]] demoProvider m none

/-- C1: for every call to `verify_server_cert`, the legacy code stored into
the result register is determined by the verification outcome exactly per the
spec's section 6 table: X509_V_OK on success, the named codes for unknown
issuer, not-yet-valid, expired, revoked, invalid purpose and hostname
mismatch, and the unspecified generic fallback for every other classified
failure. -/
theorem C1_register_code_follows_section6_table
    (R : RustlsApi) (v : ServerVerifier) (ee : CertificateDer)
    (ints : List CertificateDer) (sn : ServerName) (ocsp : List Nat)
    (now : UnixTime) :
    ((ServerVerifier.verify_server_cert R v ee ints sn ocsp now).2).last_result_load =
      specSection6Code (v.verify_server_cert_inner R ee ints now) := by
  simp only [ServerVerifier.last_result_load, verify_server_cert_snd]
  exact openssl_rv_of_eq_specSection6Code _

/-- C2: `verify_server_cert` returns a verified (Ok) decision exactly when
the mapped legacy code is the success value or the verify mode says
verification is not mandatory; in all other cases it returns the classified
error produced by the inner verification. -/
theorem C2_decision_iff_ok_or_not_mandatory
    (R : RustlsApi) (v : ServerVerifier) (ee : CertificateDer)
    (ints : List CertificateDer) (sn : ServerName) (ocsp : List Nat)
    (now : UnixTime) :
    ((ServerVerifier.verify_server_cert R v ee ints sn ocsp now).1 =
        Except.ok ServerCertVerified.assertion ↔
      (openssl_rv_of (v.verify_server_cert_inner R ee ints now) = X509_V_OK ∨
        v.mode.client_must_verify_server = false)) ∧
    (∀ e, v.verify_server_cert_inner R ee ints now = Except.error e →
      v.mode.client_must_verify_server = true →
      (ServerVerifier.verify_server_cert R v ee ints sn ocsp now).1 = Except.error e) := by
  constructor
  · rw [verify_server_cert_fst]
    cases hm : v.mode.client_must_verify_server <;>
      cases hrv : openssl_rv_of (v.verify_server_cert_inner R ee ints now) == X509_V_OK <;>
        simp_all [beq_iff_eq]
  · intro e he hm
    have hne : openssl_rv_of (v.verify_server_cert_inner R ee ints now) ≠ X509_V_OK := by
      intro hok
      rw [openssl_rv_of_eq_ok_iff, he] at hok
      exact Except.noConfusion hok
    rw [verify_server_cert_fst, he]
    rw [he] at hne
    simp [hm, hne, unwrap_err]

/-- Witness for C2 at a concrete input: with an expired chain under the
mandatory mode, the decision is the classified expired error. -/
theorem C2_decision_iff_ok_or_not_mandatory_witness :
    (ServerVerifier.verify_server_cert demoApiExpired (demoVerifier VerifyMode.mandatory)
        [5] [] "name" [] 7).1 =
      Except.error (Error.InvalidCertificate CertificateError.Expired) :=
  (C2_decision_iff_ok_or_not_mandatory demoApiExpired (demoVerifier VerifyMode.mandatory)
      [5] [] "name" [] 7).2 (Error.InvalidCertificate CertificateError.Expired) rfl rfl

/-- C3: the transport-supplied server name has no effect on the decision or
the stored code; with no configured expected name the hostname check is
skipped entirely (the name-checking collaborator is never consulted), so a
valid chain passes even when the certificate is valid for no matching name
and the transport-supplied name differs from every name in it. -/
theorem C3_transport_name_ignored_hostname_skipped
    (R : RustlsApi) (f : ParsedCertificate → ServerName → Except Error Unit)
    (v : ServerVerifier) (ee : CertificateDer) (ints : List CertificateDer)
    (sn₁ sn₂ : ServerName) (ocsp : List Nat) (now : UnixTime)
    (pc : ParsedCertificate) :
    (ServerVerifier.verify_server_cert R v ee ints sn₁ ocsp now =
      ServerVerifier.verify_server_cert R v ee ints sn₂ ocsp now) ∧
    (v.verify_hostname = none →
      ServerVerifier.verify_server_cert R v ee ints sn₁ ocsp now =
        ServerVerifier.verify_server_cert { R with verify_server_name := f }
          v ee ints sn₂ ocsp now) ∧
    (v.verify_hostname = none →
      R.try_from ee = Except.ok pc →
      R.verify_server_cert_signed_by_trust_anchor pc v.root_store ints now
          v.provider.signature_verification_algorithms.all = Except.ok () →
      (ServerVerifier.verify_server_cert R v ee ints sn₁ ocsp now).1 =
          Except.ok ServerCertVerified.assertion ∧
        ((ServerVerifier.verify_server_cert R v ee ints sn₁ ocsp now).2).last_result_load =
          X509_V_OK) := by
  refine ⟨rfl, ?_, ?_⟩
  · intro hn
    have hi : v.verify_server_cert_inner { R with verify_server_name := f } ee ints now =
        v.verify_server_cert_inner R ee ints now := by
      simp [ServerVerifier.verify_server_cert_inner, hn]
    simp [ServerVerifier.verify_server_cert, hi]
  · intro hn hp hc
    have hi : v.verify_server_cert_inner R ee ints now = Except.ok () := by
      simp [ServerVerifier.verify_server_cert_inner, hn, hp, hc, except_bind_ok,
        except_bind_error, except_pure]
    constructor
    · rw [verify_server_cert_fst, hi]
      simp [openssl_rv_of]
    · simp only [ServerVerifier.last_result_load, verify_server_cert_snd, hi]
      rfl

/-- Witness for C3 at a concrete input: with no expected hostname, swapping
the transport name and replacing the name check by one rejecting every name
changes nothing, and the valid demo chain passes. -/
theorem C3_transport_name_ignored_hostname_skipped_witness :
    (ServerVerifier.verify_server_cert demoApi (demoVerifier VerifyMode.mandatory)
        [5] [] "a" [] 7 =
      ServerVerifier.verify_server_cert demoApi (demoVerifier VerifyMode.mandatory)
        [5] [] "b" [] 7) ∧
    (ServerVerifier.verify_server_cert demoApi (demoVerifier VerifyMode.mandatory)
        [5] [] "a" [] 7 =
      ServerVerifier.verify_server_cert { demoApi with verify_server_name := rejectAllNames }
        (demoVerifier VerifyMode.mandatory) [5] [] "b" [] 7) ∧
    (ServerVerifier.verify_server_cert demoApi (demoVerifier VerifyMode.mandatory)
        [5] [] "a" [] 7).1 = Except.ok ServerCertVerified.assertion :=
  ⟨(C3_transport_name_ignored_hostname_skipped demoApi rejectAllNames
      (demoVerifier VerifyMode.mandatory) [5] [] "a" "b" [] 7 [5]).1,
    (C3_transport_name_ignored_hostname_skipped demoApi rejectAllNames
      (demoVerifier VerifyMode.mandatory) [5] [] "a" "b" [] 7 [5]).2.1 rfl,
    ((C3_transport_name_ignored_hostname_skipped demoApi rejectAllNames
      (demoVerifier VerifyMode.mandatory) [5] [] "a" "b" [] 7 [5]).2.2 rfl rfl rfl).1⟩

/-- C4: every `verify_server_cert` call writes the mapped code of its outcome
to the register, and the written code does not depend on the verify mode;
concretely, an expired chain records "certificate has expired" under both the
advisory and the mandatory mode. -/
theorem C4_register_write_mode_independent
    (R : RustlsApi) (v : ServerVerifier) (ee : CertificateDer)
    (ints : List CertificateDer) (sn : ServerName) (ocsp : List Nat)
    (now : UnixTime) (m₁ m₂ : VerifyMode) :
    ((ServerVerifier.verify_server_cert R v ee ints sn ocsp now).2).last_result_load =
      openssl_rv_of (v.verify_server_cert_inner R ee ints now) ∧
    ((ServerVerifier.verify_server_cert R { v with mode := m₁ }
        ee ints sn ocsp now).2).last_result_load =
      ((ServerVerifier.verify_server_cert R { v with mode := m₂ }
        ee ints sn ocsp now).2).last_result_load ∧
    (((ServerVerifier.verify_server_cert demoApiExpired (demoVerifier VerifyMode.advisory)
        [5] [] "sn" [] 7).2).last_result_load = X509_V_ERR_CERT_HAS_EXPIRED ∧
      ((ServerVerifier.verify_server_cert demoApiExpired (demoVerifier VerifyMode.mandatory)
        [5] [] "sn" [] 7).2).last_result_load = X509_V_ERR_CERT_HAS_EXPIRED) := by
  refine ⟨?_, ?_, rfl, rfl⟩
  · simp only [ServerVerifier.last_result_load, verify_server_cert_snd]
  · simp only [ServerVerifier.last_result_load, verify_server_cert_snd]
    rfl

/-- C5: a freshly constructed verifier's register holds the unspecified
sentinel, which lies in the fixed legacy enumeration; and the only mutation
of the register (a `verify_server_cert` call) always leaves a value of the
fixed legacy enumeration, so the register holds a valid legacy code at every
point of the engine's lifetime. -/
theorem C5_register_sentinel_and_always_valid
    (rs : RootCertStore) (p : CryptoProvider) (m : VerifyMode)
    (hn : Option ServerName) (R : RustlsApi) (v : ServerVerifier)
    (ee : CertificateDer) (ints : List CertificateDer) (sn : ServerName)
    (ocsp : List Nat) (now : UnixTime) :
    (ServerVerifier.new rs p m hn).last_result_load = X509_V_ERR_UNSPECIFIED ∧
    isLegacyCode (ServerVerifier.new rs p m hn).last_result_load ∧
    isLegacyCode
      ((ServerVerifier.verify_server_cert R v ee ints sn ocsp now).2).last_result_load := by
  refine ⟨rfl, Or.inr (Or.inl rfl), ?_⟩
  simp only [ServerVerifier.last_result_load, verify_server_cert_snd]
  exact openssl_rv_of_isLegacyCode _

/-- C7: `supported_verify_schemes` returns exactly the provider's declared
scheme set (contents and order), changes no verifier state, and depends on
nothing of the verifier but its provider. -/
theorem C7_supported_schemes_mirror_provider
    (R : RustlsApi) (v w : ServerVerifier) (h : v.provider = w.provider) :
    (ServerVerifier.supported_verify_schemes R v).1 =
      R.supported_schemes v.provider.signature_verification_algorithms ∧
    (ServerVerifier.supported_verify_schemes R v).2 = v ∧
    (ServerVerifier.supported_verify_schemes R v).1 =
      (ServerVerifier.supported_verify_schemes R w).1 :=
  ⟨rfl, rfl, by simp [ServerVerifier.supported_verify_schemes, h]⟩

/-- Witness for C7 at a concrete input: two demo verifiers sharing a provider
report the same scheme list. -/
theorem C7_supported_schemes_mirror_provider_witness :
    (ServerVerifier.supported_verify_schemes demoApi (demoVerifier VerifyMode.advisory)).1 =
      (ServerVerifier.supported_verify_schemes demoApi (demoVerifier VerifyMode.mandatory)).1 :=
  (C7_supported_schemes_mirror_provider demoApi (demoVerifier VerifyMode.advisory)
    (demoVerifier VerifyMode.mandatory) rfl).2.2

/-- C8: `verify_tls12_signature` and `verify_tls13_signature` are pure
delegations to the provider's protocol-version-specific verification and
change no verifier state; in particular the result register is unchanged. -/
theorem C8_signature_delegation_no_state_change
    (R : RustlsApi) (v : ServerVerifier) (message : List Nat)
    (cert : CertificateDer) (dss : DigitallySignedStruct) :
    (ServerVerifier.verify_tls12_signature R v message cert dss).1 =
      R.verify_tls12_signature message cert dss
        v.provider.signature_verification_algorithms ∧
    (ServerVerifier.verify_tls12_signature R v message cert dss).2 = v ∧
    ((ServerVerifier.verify_tls12_signature R v message cert dss).2).last_result_load =
      v.last_result_load ∧
    (ServerVerifier.verify_tls13_signature R v message cert dss).1 =
      R.verify_tls13_signature message cert dss
        v.provider.signature_verification_algorithms ∧
    (ServerVerifier.verify_tls13_signature R v message cert dss).2 = v ∧
    ((ServerVerifier.verify_tls13_signature R v message cert dss).2).last_result_load =
      v.last_result_load :=
  ⟨rfl, rfl, rfl, rfl, rfl, rfl⟩

/-- C9: the checks of `verify_server_cert_inner` run in a fixed order, a later
check only after every earlier one succeeded: a parse failure short-circuits
past chain validation and the name check; a chain-validation failure
short-circuits past the name check and is the code recorded in the register;
and no classified error other than the name-mismatch one maps to the hostname
mismatch code. -/
theorem C9_check_order_short_circuit
    (R : RustlsApi)
    (f : ParsedCertificate → RootCertStore → List CertificateDer → UnixTime →
      List SigVerifAlg → Except Error Unit)
    (g : ParsedCertificate → ServerName → Except Error Unit)
    (v : ServerVerifier) (ee : CertificateDer) (ints : List CertificateDer)
    (sn : ServerName) (ocsp : List Nat) (now : UnixTime)
    (pc : ParsedCertificate) (e : Error) :
    (R.try_from ee = Except.error e →
      ServerVerifier.verify_server_cert_inner
        { R with verify_server_cert_signed_by_trust_anchor := f, verify_server_name := g }
        v ee ints now = Except.error e) ∧
    (R.try_from ee = Except.ok pc →
      R.verify_server_cert_signed_by_trust_anchor pc v.root_store ints now
          v.provider.signature_verification_algorithms.all = Except.error e →
      ServerVerifier.verify_server_cert_inner { R with verify_server_name := g }
          v ee ints now = Except.error e ∧
        ((ServerVerifier.verify_server_cert { R with verify_server_name := g }
            v ee ints sn ocsp now).2).last_result_load =
          openssl_rv_of (Except.error e)) ∧
    (∀ e2, e2 ≠ Error.InvalidCertificate CertificateError.NotValidForName →
      openssl_rv_of (Except.error e2) ≠ X509_V_ERR_HOSTNAME_MISMATCH) := by
  refine ⟨?_, ?_, ?_⟩
  · intro hp
    simp [ServerVerifier.verify_server_cert_inner, hp, except_bind_error]
  · intro hp hc
    have hi : v.verify_server_cert_inner { R with verify_server_name := g } ee ints now =
        Except.error e := by
      simp [ServerVerifier.verify_server_cert_inner, hp, hc, except_bind_ok,
        except_bind_error]
    refine ⟨hi, ?_⟩
    simp only [ServerVerifier.last_result_load, verify_server_cert_snd, hi]
  · intro e2 hne
    cases e2 with
    | InvalidCertificate ce =>
      cases ce <;>
        simp_all [openssl_rv_of, X509_V_ERR_HOSTNAME_MISMATCH, X509_V_OK,
          X509_V_ERR_UNSPECIFIED, X509_V_ERR_CERT_NOT_YET_VALID,
          X509_V_ERR_CERT_HAS_EXPIRED, X509_V_ERR_UNABLE_TO_GET_ISSUER_CERT_LOCALLY,
          X509_V_ERR_CERT_REVOKED, X509_V_ERR_INVALID_PURPOSE]
    | otherError t =>
      simp [openssl_rv_of, X509_V_ERR_HOSTNAME_MISMATCH, X509_V_ERR_UNSPECIFIED]

/-- Witness for C9 at a concrete input: with a chain failing as expired and a
name check rejecting everything, the inner outcome and the register record
the chain-validation error. -/
theorem C9_check_order_short_circuit_witness :
    ServerVerifier.verify_server_cert_inner
        { demoApiExpired with verify_server_name := rejectAllNames }
        (demoVerifier VerifyMode.mandatory) [5] [] 7 =
      Except.error (Error.InvalidCertificate CertificateError.Expired) ∧
    ((ServerVerifier.verify_server_cert
        { demoApiExpired with verify_server_name := rejectAllNames }
        (demoVerifier VerifyMode.mandatory) [5] [] "sn" [] 7).2).last_result_load =
      openssl_rv_of (Except.error (Error.InvalidCertificate CertificateError.Expired)) :=
  (C9_check_order_short_circuit demoApiExpired
    demoApi.verify_server_cert_signed_by_trust_anchor rejectAllNames
    (demoVerifier VerifyMode.mandatory) [5] [] "sn" [] 7 [5]
    (Error.InvalidCertificate CertificateError.Expired)).2.1 rfl rfl

/-- C10: the OCSP-response argument is completely ignored: two calls
differing only in the OCSP bytes yield the identical decision and the
identical post-state, hence the identical stored legacy code. -/
theorem C10_ocsp_response_ignored
    (R : RustlsApi) (v : ServerVerifier) (ee : CertificateDer)
    (ints : List CertificateDer) (sn : ServerName) (ocsp₁ ocsp₂ : List Nat)
    (now : UnixTime) :
    ServerVerifier.verify_server_cert R v ee ints sn ocsp₁ now =
      ServerVerifier.verify_server_cert R v ee ints sn ocsp₂ now :=
  rfl

end Verifier
